import Mathlib

/-!
Shallow embedding of the in-memory trading engine and risk manager of the
Trado repository (src/lib/trading-engine.ts and src/lib/risk-management.ts),
together with theorems settling the frozen claims about them.

Modelling conventions:
* JavaScript numbers are modelled as exact rationals (`ℚ`); floating-point
  rounding is not modelled.  The one `Infinity` value the code uses
  (`closePosition` passes `Infinity` as the balance) is modelled by the type
  `JsBal := Option ℚ`, where `none` stands for `+Infinity`.
* `Math.random() * 0.001` (the market-order slippage draw) is modelled by an
  explicit parameter `s` with `0 ≤ s < 0.001` supplied by the caller.
* `Date.now()` timestamps are threaded through as an explicit `now : Nat`
  parameter; order ids (`order-${Date.now()}-${counter}`) are modelled by the
  engine's monotone counter, which is what makes them unique, and trade ids by
  the index in the trade list.
* JavaScript `Map` objects (orders, positions) are modelled as association
  lists with `Map.set` replace-in-place semantics; the position key
  `` `${symbol}-${leverage}` `` is modelled as the pair `(symbol, leverage)`
  (string collisions between distinct pairs are not modelled).
* JavaScript truthiness tests on optional numbers/strings (`!order.price`,
  `!order.symbol`, `currentPrice &&`) are modelled exactly: a number is falsy
  iff it is 0 (NaN is not modelled), a string iff it is empty.
* The exact digit strings produced by `toFixed` interpolation inside error
  messages are abstracted by `toString`; every claim only depends on which
  errors are produced and on their being joined with ", ".
-/

/-- Order side, `'buy' | 'sell'`. -/
inductive Side where
  | buy
  | sell
deriving DecidableEq, Repr

/-- Order type, `'market' | 'limit'`. -/
inductive OType where
  | market
  | limit
deriving DecidableEq, Repr

/-- Order status, `'pending' | 'filled' | 'cancelled' | 'partial' | 'rejected'`
(src/types/trading.ts).  The engine never produces `partial`, but the type
allows it. -/
inductive OStatus where
  | pending
  | filled
  | cancelled
  | partialFill
  | rejected
deriving DecidableEq, Repr

/-- Time in force, `'GTC' | 'IOC' | 'FOK'`. -/
inductive TIF where
  | GTC
  | IOC
  | FOK
deriving DecidableEq, Repr

/-- A JavaScript number used as a balance: `none` models `+Infinity`
(`closePosition` passes `Infinity`), `some b` a finite value. -/
abbrev JsBal : Type := Option ℚ

/-- `q > b` for a balance `b` that may be `+Infinity` (never greater than
infinity). -/
def gtBal (q : ℚ) : JsBal → Bool
  | none => false
  | some b => decide (q > b)

/-- Multiply a possibly-infinite balance by a positive rational constant
(`userBalance * 0.5`); `Infinity * c = Infinity`. -/
def mulBal (b : JsBal) (c : ℚ) : JsBal := Option.map (fun x => x * c) b

/-- JS truthiness of an optional number: falsy iff absent or 0. -/
def truthyQ : Option ℚ → Bool
  | none => false
  | some q => decide (q ≠ 0)

/-- JS truthiness of an optional string: falsy iff absent or empty. -/
def truthyStr : Option String → Bool
  | none => false
  | some st => decide (st ≠ "")

/-- `x || d` for an optional JS number: the default is used when the field is
absent or falsy (0). -/
def orDefault (x : Option ℚ) (d : ℚ) : ℚ :=
  match x with
  | none => d
  | some q => if q = 0 then d else q

/-- `Math.sign` on an exact rational: -1, 0 or 1. -/
def qsign (q : ℚ) : ℚ :=
  if q > 0 then 1 else if q < 0 then -1 else 0

/-- Association-list model of a JavaScript `Map`: lookup (`Map.get`). -/
def lookupKV {α β : Type} [DecidableEq α] : List (α × β) → α → Option β
  | [], _ => none
  | (k', v') :: rest, k => if k' = k then some v' else lookupKV rest k

/-- Association-list model of a JavaScript `Map`: insert-or-replace
(`Map.set`), keeping insertion order. -/
def insertKV {α β : Type} [DecidableEq α] : List (α × β) → α → β → List (α × β)
  | [], k, v => [(k, v)]
  | (k', v') :: rest, k, v =>
      if k' = k then (k, v) :: rest else (k', v') :: insertKV rest k v

/-- `Trade` (src/types/trading.ts): an immutable execution record.  The id is
modelled by the index in the engine's trade list. -/
structure Trade where
  id : Nat
  orderId : Nat
  symbol : String
  side : Side
  quantity : ℚ
  price : ℚ
  timestamp : Nat
  fee : ℚ
  leverage : ℚ
deriving DecidableEq, Repr

/-- `Order` (src/types/trading.ts) as the engine constructs and stores it:
`price` and `leverage` are always set by `executeOrder` (defaulted from
`currentPrice` / 1), so they are plain rationals here. -/
structure Order where
  id : Nat
  symbol : String
  side : Side
  otype : OType
  quantity : ℚ
  price : ℚ
  status : OStatus
  timestamp : Nat
  leverage : ℚ
  stopLoss : Option ℚ
  takeProfit : Option ℚ
  timeInForce : TIF
  filledQuantity : Option ℚ := none
  averagePrice : Option ℚ := none
  filledAt : Option Nat := none
  cancelledAt : Option Nat := none
  rejectedReason : Option String := none
deriving DecidableEq, Repr

/-- `Partial<Order>`: the caller-supplied order data, every field optional. -/
structure OrderData where
  symbol : Option String := none
  side : Option Side := none
  otype : Option OType := none
  quantity : Option ℚ := none
  price : Option ℚ := none
  leverage : Option ℚ := none
  stopLoss : Option ℚ := none
  takeProfit : Option ℚ := none
  timeInForce : Option TIF := none
deriving DecidableEq, Repr

/-- `Position` (src/types/trading.ts): net exposure in one symbol at one
leverage tier.  The id (`pos-${Date.now()}`) is modelled by the creation
timestamp. -/
structure Position where
  id : Nat
  symbol : String
  side : Side
  size : ℚ
  entryPrice : ℚ
  markPrice : ℚ
  pnl : ℚ
  pnlPercent : ℚ
  unrealizedPnl : ℚ
  realizedPnl : ℚ
  leverage : ℚ
  margin : ℚ
  timestamp : Nat
  stopLoss : Option ℚ := none
  takeProfit : Option ℚ := none
deriving DecidableEq, Repr

/-- The hard validation errors `validateOrder` can push
(src/lib/trading-engine.ts lines 51-73); the numeric payloads are the values
interpolated into the message text. -/
inductive VErr where
  | symbolRequired
  | sideRequired
  | quantityPositive
  | typeRequired
  | priceRequiredForLimit
  | insufficientBalance (required : ℚ) (available : JsBal)
  | minOrderSize
deriving DecidableEq, Repr

/-- The soft warnings `validateOrder` can push
(src/lib/trading-engine.ts lines 75-92). -/
inductive Warn where
  | largeOrder
  | marketSlippage
  | limitDeviation (deviation : ℚ)
deriving DecidableEq, Repr

/-- Message text of a validation error (string formatting of the interpolated
numbers is abstracted by `toString`). -/
def renderVErr : VErr → String
  | .symbolRequired => "Symbol is required"
  | .sideRequired => "Order side is required"
  | .quantityPositive => "Quantity must be greater than 0"
  | .typeRequired => "Order type is required"
  | .priceRequiredForLimit => "Price is required for limit orders"
  | .insufficientBalance required available =>
      "Insufficient balance. Required: $" ++ toString required ++
        ", Available: $" ++ toString (available.getD 0)
  | .minOrderSize => "Order size must be at least $10"

/-- `OrderValidationResult` (src/lib/trading-engine.ts lines 3-7). -/
structure OrderValidationResult where
  isValid : Bool
  errors : List VErr
  warnings : List Warn
deriving DecidableEq, Repr

/-- `OrderExecutionResult` (src/lib/trading-engine.ts lines 9-16). -/
structure OrderExecutionResult where
  success : Bool
  orderId : Option Nat := none
  executedPrice : Option ℚ := none
  executedQuantity : Option ℚ := none
  error : Option String := none
  trade : Option Trade := none
deriving DecidableEq, Repr

/-- The engine's mutable state: the orders map, the positions map keyed by
`(symbol, leverage)`, the append-only trade list, and the order counter. -/
structure EngineState where
  orders : List (Nat × Order) := []
  positions : List ((String × ℚ) × Position) := []
  trades : List Trade := []
  orderCounter : Nat := 0
deriving DecidableEq, Repr

/-- The empty engine (a fresh `TradingEngine` instance). -/
def emptyEngine : EngineState := {}

/-- `validateOrder` (src/lib/trading-engine.ts lines 46-99), translated
clause by clause; `errors`/`warnings` are built in push order. -/
def validateOrder (order : OrderData) (userBalance : JsBal) (currentPrice : ℚ) :
    OrderValidationResult :=
  let q := order.quantity.getD 0
  let p := order.price.getD 0
  let errors : List VErr :=
    (if truthyStr order.symbol then [] else [.symbolRequired]) ++
    (if order.side.isSome then [] else [.sideRequired]) ++
    (if !truthyQ order.quantity || q ≤ 0 then [.quantityPositive] else []) ++
    (if order.otype.isSome then [] else [.typeRequired]) ++
    (if order.otype = some .limit ∧ (¬truthyQ order.price ∨ p ≤ 0) then
      [.priceRequiredForLimit] else []) ++
    (if order.side = some .buy ∧ truthyQ order.quantity ∧ truthyQ order.price ∧
        gtBal (q * p) userBalance then
      [.insufficientBalance (q * p) userBalance] else []) ++
    (if truthyQ order.quantity ∧ truthyQ order.price ∧ q * p < 10 then
      [.minOrderSize] else [])
  let warnings : List Warn :=
    (if truthyQ order.quantity ∧ truthyQ order.price ∧
        gtBal (q * p) (mulBal userBalance (1/2)) then
      [.largeOrder] else []) ++
    (if order.otype = some .market ∧ currentPrice ≠ 0 then
      [.marketSlippage] else []) ++
    (if order.otype = some .limit ∧ truthyQ order.price ∧ currentPrice ≠ 0 ∧
        |p - currentPrice| / currentPrice > 1/20 then
      [.limitDeviation (|p - currentPrice| / currentPrice)] else [])
  { isValid := errors.isEmpty, errors := errors, warnings := warnings }

/-- `calculateFee` (src/lib/trading-engine.ts lines 294-297): flat 0.1% of
notional. -/
def calculateFee (quantity price : ℚ) : ℚ := quantity * price * (1/1000)

/-- `trade.leverage || 1` as used inside `updatePosition`. -/
def levOr1 (l : ℚ) : ℚ := if l = 0 then 1 else l

/-- `updatePosition` (src/lib/trading-engine.ts lines 236-292): create the
position on first trade against a `(symbol, leverage)` key, otherwise apply
weighted-average accounting for same-direction fills and realized-P&L
accounting for opposite-direction fills. -/
def updatePosition (st : EngineState) (trade : Trade) : EngineState :=
  let key := (trade.symbol, trade.leverage)
  match lookupKV st.positions key with
  | none =>
      let position : Position :=
        { id := trade.timestamp
          symbol := trade.symbol
          side := trade.side
          size := if trade.side = .buy then trade.quantity else -trade.quantity
          entryPrice := trade.price
          markPrice := trade.price
          pnl := 0
          pnlPercent := 0
          unrealizedPnl := 0
          realizedPnl := 0
          leverage := levOr1 trade.leverage
          margin := trade.quantity * trade.price / levOr1 trade.leverage
          timestamp := trade.timestamp
          stopLoss := none
          takeProfit := none }
      { st with positions := insertKV st.positions key position }
  | some position =>
      let currentSize := position.size
      let tradeSize := if trade.side = .buy then trade.quantity else -trade.quantity
      let newSize := currentSize + tradeSize
      if qsign currentSize = qsign tradeSize ∨ currentSize = 0 then
        let totalValue := |currentSize| * position.entryPrice + trade.quantity * trade.price
        let totalQuantity := |currentSize| + trade.quantity
        let updated :=
          { position with
              entryPrice := totalValue / totalQuantity
              size := newSize
              margin := position.margin + trade.quantity * trade.price / levOr1 trade.leverage }
        { st with positions := insertKV st.positions key updated }
      else
        let closingQuantity := min |currentSize| trade.quantity
        let pnlPerUnit :=
          if trade.side = .buy then position.entryPrice - trade.price
          else trade.price - position.entryPrice
        let reduced :=
          { position with
              realizedPnl := position.realizedPnl + pnlPerUnit * closingQuantity * position.leverage
              size := newSize }
        let final :=
          if |newSize| < |currentSize| then
            { reduced with margin := |newSize| * position.entryPrice / position.leverage }
          else reduced
        { st with positions := insertKV st.positions key final }

/-- `executeMarketOrder` (src/lib/trading-engine.ts lines 162-192): execute at
`currentPrice` shifted by the slippage draw `s` in the adverse direction,
append the trade, update the position; always succeeds. -/
def executeMarketOrder (st : EngineState) (order : Order) (currentPrice s : ℚ)
    (now : Nat) : EngineState × OrderExecutionResult :=
  let slippageDirection : ℚ := if order.side = .buy then 1 else -1
  let executedPrice := currentPrice * (1 + s * slippageDirection)
  let trade : Trade :=
    { id := st.trades.length
      orderId := order.id
      symbol := order.symbol
      side := order.side
      quantity := order.quantity
      price := executedPrice
      timestamp := now
      fee := calculateFee order.quantity executedPrice
      leverage := order.leverage }
  let st1 := { st with trades := st.trades ++ [trade] }
  let st2 := updatePosition st1 trade
  (st2,
    { success := true
      executedPrice := some executedPrice
      executedQuantity := some order.quantity
      trade := some trade })

/-- `executeLimitOrder` (src/lib/trading-engine.ts lines 194-234): fill in
full at the limit price iff marketable, otherwise report success with zero
executed quantity and touch nothing. -/
def executeLimitOrder (st : EngineState) (order : Order) (currentPrice : ℚ)
    (now : Nat) : EngineState × OrderExecutionResult :=
  let shouldExecute :=
    (order.side = .buy ∧ order.price ≥ currentPrice) ∨
    (order.side = .sell ∧ order.price ≤ currentPrice)
  if shouldExecute then
    let trade : Trade :=
      { id := st.trades.length
        orderId := order.id
        symbol := order.symbol
        side := order.side
        quantity := order.quantity
        price := order.price
        timestamp := now
        fee := calculateFee order.quantity order.price
        leverage := order.leverage }
    let st1 := { st with trades := st.trades ++ [trade] }
    let st2 := updatePosition st1 trade
    (st2,
      { success := true
        executedPrice := some order.price
        executedQuantity := some order.quantity
        trade := some trade })
  else
    (st, { success := true, executedPrice := none, executedQuantity := some 0 })

/-- `executeOrder` (src/lib/trading-engine.ts lines 101-160): validate, store
the order as `pending`, dispatch by type, then mark the stored order `filled`
or `rejected` according to the execution result's `success` flag.  The
slippage draw `s` and the clock `now` are explicit parameters. -/
def executeOrder (st : EngineState) (orderData : OrderData) (userBalance : JsBal)
    (currentPrice s : ℚ) (now : Nat) : EngineState × OrderExecutionResult :=
  let validation := validateOrder orderData userBalance currentPrice
  if !validation.isValid then
    (st,
      { success := false
        error := some (String.intercalate ", " (validation.errors.map renderVErr)) })
  else
    let oid := st.orderCounter + 1
    let order : Order :=
      { id := oid
        symbol := orderData.symbol.getD ""
        side := orderData.side.getD .buy
        otype := orderData.otype.getD .market
        quantity := orderData.quantity.getD 0
        price := orDefault orderData.price currentPrice
        status := .pending
        timestamp := now
        leverage := orDefault orderData.leverage 1
        stopLoss := orderData.stopLoss
        takeProfit := orderData.takeProfit
        timeInForce := orderData.timeInForce.getD .GTC }
    let st1 := { st with orders := insertKV st.orders oid order, orderCounter := oid }
    let step :=
      if order.otype = .market then executeMarketOrder st1 order currentPrice s now
      else executeLimitOrder st1 order currentPrice now
    let st2 := step.1
    let er := step.2
    let order2 :=
      if er.success then
        { order with
            status := .filled
            filledQuantity := er.executedQuantity
            averagePrice := er.executedPrice
            filledAt := some now }
      else
        { order with status := .rejected, rejectedReason := er.error }
    let st3 := { st2 with orders := insertKV st2.orders oid order2 }
    (st3, { er with orderId := some oid })

/-- `cancelOrder` (src/lib/trading-engine.ts lines 347-357): cancel iff the
order exists and is still `pending`; otherwise return false and change
nothing. -/
def cancelOrder (st : EngineState) (orderId : Nat) (now : Nat) :
    EngineState × Bool :=
  match lookupKV st.orders orderId with
  | none => (st, false)
  | some order =>
      if order.status ≠ .pending then (st, false)
      else
        let order2 := { order with status := .cancelled, cancelledAt := some now }
        ({ st with orders := insertKV st.orders orderId order2 }, true)

/-- `closePosition` (src/lib/trading-engine.ts lines 359-375): find the
position by id, synthesize an opposite-side market order for the full
absolute size, and route it through `executeOrder` with an infinite balance
sentinel. -/
def closePosition (st : EngineState) (positionId : Nat) (currentPrice s : ℚ)
    (now : Nat) : EngineState × OrderExecutionResult :=
  match (st.positions.map Prod.snd).find? (fun pos => pos.id = positionId) with
  | none => (st, { success := false, error := some "Position not found" })
  | some position =>
      let closingOrder : OrderData :=
        { symbol := some position.symbol
          side := some (if position.side = .buy then Side.sell else Side.buy)
          otype := some .market
          quantity := some |position.size|
          leverage := some position.leverage }
      executeOrder st closingOrder none currentPrice s now

/-! ### Generic association-list lemmas -/

/-- Looking up the key just written by `Map.set` yields the written value. -/
theorem lookupKV_insertKV_self {α β : Type} [DecidableEq α]
    (l : List (α × β)) (k : α) (v : β) :
    lookupKV (insertKV l k v) k = some v := by
  induction l with
  | nil => simp [insertKV, lookupKV]
  | cons hd tl ih =>
    obtain ⟨k', v'⟩ := hd
    by_cases h : k' = k
    · simp [insertKV, lookupKV, h]
    · simp [insertKV, lookupKV, h, ih]

/-! ### Claim theorems -/

/-- Claim C6: `cancelOrder` returns true, marks the order `cancelled` and
stamps `cancelledAt` iff the order exists with status exactly `pending`; in
every other case it returns false and leaves the whole engine state
unchanged. -/
theorem cancelOrder_only_pending (st : EngineState) (orderId now : Nat) :
    ((cancelOrder st orderId now).2 = true ↔
      ∃ o, lookupKV st.orders orderId = some o ∧ o.status = .pending) ∧
    (∀ o, lookupKV st.orders orderId = some o → o.status = .pending →
      cancelOrder st orderId now =
        ({ st with
            orders := insertKV st.orders orderId
              ({ o with status := .cancelled, cancelledAt := some now }) }, true)) ∧
    ((cancelOrder st orderId now).2 = false → (cancelOrder st orderId now).1 = st) := by
  unfold cancelOrder
  rcases h : lookupKV st.orders orderId with _ | o
  · simp
  · by_cases hs : o.status = OStatus.pending
    · simp [hs]
    · simp [hs]

/-- Claim C6 witness: cancelling the single pending order of a concrete
one-order state succeeds and rewrites exactly that order. -/
theorem cancelOrder_only_pending_witness :
    (cancelOrder
        { orders :=
            [(1,
              { id := 1, symbol := "BTC", side := .buy, otype := .limit,
                quantity := 1, price := 50, status := .pending, timestamp := 0,
                leverage := 1, stopLoss := none, takeProfit := none,
                timeInForce := .GTC })],
          positions := [], trades := [], orderCounter := 1 } 1 7).2 = true := by
  refine (cancelOrder_only_pending _ 1 7).1.mpr ?_
  exact ⟨_, rfl, rfl⟩

/-- Claim C7: when validation fails, `executeOrder` returns failure carrying
the validation errors joined with ", " and the engine state is exactly
unchanged — no order is stored. -/
theorem executeOrder_invalid_no_store (st : EngineState) (od : OrderData)
    (bal : JsBal) (cp s : ℚ) (now : Nat)
    (h : (validateOrder od bal cp).isValid = false) :
    executeOrder st od bal cp s now =
      (st,
        { success := false
          error := some (String.intercalate ", "
            ((validateOrder od bal cp).errors.map renderVErr)) }) := by
  unfold executeOrder
  simp [h]

/-- Claim C7 witness: an order with no fields at all fails validation, and a
concrete `executeOrder` call on it returns the joined errors and keeps the
empty engine state. -/
theorem executeOrder_invalid_no_store_witness :
    (validateOrder {} (some 100) 50).isValid = false ∧
    executeOrder emptyEngine {} (some 100) 50 0 0 =
      (emptyEngine,
        { success := false
          error := some (String.intercalate ", "
            ((validateOrder {} (some 100) 50).errors.map renderVErr)) }) := by
  have h : (validateOrder {} (some 100) 50).isValid = false := by
    simp [validateOrder, truthyStr, truthyQ]
  exact ⟨h, executeOrder_invalid_no_store emptyEngine {} (some 100) 50 0 0 h⟩

/-- Claim C5: a buy order carrying a positive quantity and a (truthy) price
with notional `quantity*price` above the balance fails validation with an
insufficient-balance error, while the otherwise-identical sell order never
produces an insufficient-balance error. -/
theorem validateOrder_balance_gate_buy_only (od : OrderData) (bal cp q p : ℚ)
    (hside : od.side = some .buy) (hq : od.quantity = some q) (hq0 : 0 < q)
    (hp : od.price = some p) (hp0 : p ≠ 0) (hbal : q * p > bal) :
    ((validateOrder od (some bal) cp).isValid = false ∧
      VErr.insufficientBalance (q * p) (some bal) ∈
        (validateOrder od (some bal) cp).errors) ∧
    (∀ r a, VErr.insufficientBalance r a ∉
      (validateOrder { od with side := some .sell } (some bal) cp).errors) := by
  constructor
  · have hmem : VErr.insufficientBalance (q * p) (some bal) ∈
        (validateOrder od (some bal) cp).errors := by
      simp only [validateOrder, hside, hq, hp, List.mem_append]
      have hqt : truthyQ (some q) = true := by simp [truthyQ]; linarith
      have hpt : truthyQ (some p) = true := by simp [truthyQ, hp0]
      have hgt : gtBal (q * p) (some bal) = true := by simp [gtBal, hbal]
      simp [hqt, hpt, hgt]
    refine ⟨?_, hmem⟩
    have hdef : (validateOrder od (some bal) cp).isValid =
        (validateOrder od (some bal) cp).errors.isEmpty := rfl
    rcases hne : (validateOrder od (some bal) cp).errors with _ | ⟨e, es⟩
    · rw [hne] at hmem; simp at hmem
    · rw [hdef, hne]; rfl
  · intro r a
    simp only [validateOrder, List.mem_append]
    intro hmem
    rcases hmem with ((((((h | h) | h) | h) | h) | h) | h) <;>
      revert h <;> split <;> simp_all

/-- A concrete buy limit order whose notional (200) exceeds a 150 balance. -/
def buyGateData : OrderData :=
  { symbol := some "BTC", side := some .buy, otype := some .limit,
    quantity := some 2, price := some 100 }

/-- Claim C5 witness: the balance gate fires for the concrete buy order
`buyGateData` against balance 150 and not for its sell twin. -/
theorem validateOrder_balance_gate_buy_only_witness :
    ((validateOrder buyGateData (some 150) 100).isValid = false ∧
      VErr.insufficientBalance (2 * 100) (some 150) ∈
        (validateOrder buyGateData (some 150) 100).errors) ∧
    (∀ r a, VErr.insufficientBalance r a ∉
      (validateOrder { buyGateData with side := some .sell } (some 150) 100).errors) :=
  validateOrder_balance_gate_buy_only buyGateData 150 100 2 100 rfl rfl
    (by norm_num) rfl (by norm_num) (by norm_num)

/-- Claim C8: a market order executes at `currentPrice * (1 + s)` for a buy
and `currentPrice * (1 - s)` for a sell, where `s` is the slippage draw in
`[0, 0.001)`; for reference price 100 a buy therefore lands in `[100, 100.1]`
and a sell in `[99.9, 100]`. -/
theorem executeMarketOrder_slippage_bounds (st : EngineState) (o : Order)
    (cp s : ℚ) (now : Nat) (hcp : 0 < cp) (hs0 : 0 ≤ s) (hs1 : s < 1/1000) :
    ((o.side = .buy →
        (executeMarketOrder st o cp s now).2.executedPrice = some (cp * (1 + s))) ∧
      (o.side = .sell →
        (executeMarketOrder st o cp s now).2.executedPrice = some (cp * (1 - s)))) ∧
    (cp = 100 →
      ∀ pr, (executeMarketOrder st o cp s now).2.executedPrice = some pr →
        ((o.side = .buy → 100 ≤ pr ∧ pr ≤ 100.1) ∧
          (o.side = .sell → 99.9 ≤ pr ∧ pr ≤ 100))) := by
  have hbuy : o.side = .buy →
      (executeMarketOrder st o cp s now).2.executedPrice = some (cp * (1 + s)) := by
    intro h
    simp only [executeMarketOrder, h]
    norm_num
  have hsell : o.side = .sell →
      (executeMarketOrder st o cp s now).2.executedPrice = some (cp * (1 - s)) := by
    intro h
    simp only [executeMarketOrder, h]
    norm_num
    left
    rw [if_neg (by decide)]
    ring
  refine ⟨⟨hbuy, hsell⟩, ?_⟩
  intro h100 pr hpr
  constructor
  · intro hb
    rw [hbuy hb, h100] at hpr
    obtain rfl : pr = 100 * (1 + s) := by injection hpr.symm
    constructor <;> [nlinarith; nlinarith [show (100.1 : ℚ) = 1001/10 from by norm_num]]
  · intro hb
    rw [hsell hb, h100] at hpr
    obtain rfl : pr = 100 * (1 - s) := by injection hpr.symm
    constructor <;> [nlinarith [show (99.9 : ℚ) = 999/10 from by norm_num]; nlinarith]

/-- Claim C8 witness: a concrete market buy of 1 BTC at reference price 100
with slippage draw 1/2000 lands at 100.05, inside the claimed interval. -/
theorem executeMarketOrder_slippage_bounds_witness :
    (executeMarketOrder emptyEngine
        { id := 1, symbol := "BTC", side := .buy, otype := .market, quantity := 1,
          price := 100, status := .pending, timestamp := 0, leverage := 1,
          stopLoss := none, takeProfit := none, timeInForce := .GTC }
        100 (1/2000) 0).2.executedPrice = some (100 * (1 + 1/2000)) :=
  (executeMarketOrder_slippage_bounds emptyEngine _ 100 (1/2000) 0 (by norm_num)
    (by norm_num) (by norm_num)).1.1 rfl

/-! ### Risk manager (src/lib/risk-management.ts) -/

/-- `RiskLimits` (src/lib/risk-management.ts lines 16-22). -/
structure RiskLimits where
  maxMarginUtilization : ℚ
  maxPositionSize : ℚ
  maxDailyLoss : ℚ
  maxConcurrentPositions : ℚ
  maxLeveragePerPosition : ℚ
deriving DecidableEq, Repr

/-- The default limits the `RiskManager` is constructed with
(src/lib/risk-management.ts lines 26-32). -/
def defaultRiskLimits : RiskLimits :=
  { maxMarginUtilization := 4/5
    maxPositionSize := 10000
    maxDailyLoss := 1000
    maxConcurrentPositions := 5
    maxLeveragePerPosition := 20 }

/-- Liquidation-risk bucket `'low' | 'medium' | 'high'`. -/
inductive LiqRisk where
  | low
  | medium
  | high
deriving DecidableEq, Repr

/-- The warnings `generateWarnings` can push
(src/lib/risk-management.ts lines 130-172). -/
inductive RiskWarning where
  | highMarginUtilization (utilization : ℚ)
  | tooManyPositions (count : Nat)
  | highLeverage (count : Nat)
  | largeUnrealizedLosses (amount : ℚ)
  | liquidationRisk (count : Nat)
deriving DecidableEq, Repr

/-- `RiskMetrics` (src/lib/risk-management.ts lines 3-14). -/
structure RiskMetrics where
  totalExposure : ℚ
  availableMargin : ℚ
  marginUsed : ℚ
  marginUtilization : ℚ
  totalUnrealizedPnl : ℚ
  totalRealizedPnl : ℚ
  riskScore : ℚ
  maxPositionSize : ℚ
  liquidationRisk : LiqRisk
  warnings : List RiskWarning
deriving DecidableEq, Repr

/-- `calculateRiskScore` (src/lib/risk-management.ts lines 83-102): up to 40
points for margin utilization, up to 30 for position count, up to 30 for a
negative P&L ratio, capped at 100. -/
def calculateRiskScore (limits : RiskLimits) (marginUtilization : ℚ)
    (positionCount : Nat) (pnlRatio : ℚ) : ℚ :=
  let score : ℚ := 0
  let score := score + marginUtilization * 40
  let score := score + min ((positionCount : ℚ) / limits.maxConcurrentPositions) 1 * 30
  let score := if pnlRatio < 0 then score + min (|pnlRatio| * 2) 1 * 30 else score
  min score 100

/-- `calculateLiquidationRisk` (src/lib/risk-management.ts lines 104-119). -/
def calculateLiquidationRisk (positions : List Position) (accountBalance : ℚ) :
    LiqRisk :=
  let highLeveragePositions := (positions.filter (fun pos => pos.leverage > 10)).length
  let marginUtilization := (positions.map Position.margin).sum / accountBalance
  let negativePnlCount := (positions.filter (fun pos => pos.unrealizedPnl < 0)).length
  if marginUtilization > 9/10 ∨ highLeveragePositions > 2 then .high
  else if marginUtilization > 7/10 ∨ highLeveragePositions > 0 ∨ negativePnlCount > 3 then
    .medium
  else .low

/-- `calculateMaxPositionSize` (src/lib/risk-management.ts lines 121-128). -/
def calculateMaxPositionSize (limits : RiskLimits) (accountBalance marginUsed : ℚ) : ℚ :=
  min ((accountBalance - marginUsed) * (1/2)) limits.maxPositionSize

/-- `generateWarnings` (src/lib/risk-management.ts lines 130-172); the
`orders` argument is accepted and unused exactly as in the source. -/
def generateWarnings (limits : RiskLimits) (positions : List Position)
    (orders : List Order) (accountBalance : ℚ) : List RiskWarning :=
  let marginUsed := (positions.map Position.margin).sum
  let marginUtilization := marginUsed / accountBalance
  let totalUnrealizedPnl := (positions.map Position.unrealizedPnl).sum
  let highLeveragePositions :=
    positions.filter (fun pos => pos.leverage > limits.maxLeveragePerPosition)
  let riskPositions :=
    positions.filter (fun pos => pos.unrealizedPnl / pos.margin * 100 < -50)
  (if marginUtilization > limits.maxMarginUtilization then
    [.highMarginUtilization marginUtilization] else []) ++
  (if (positions.length : ℚ) > limits.maxConcurrentPositions then
    [.tooManyPositions positions.length] else []) ++
  (if highLeveragePositions.length > 0 then
    [.highLeverage highLeveragePositions.length] else []) ++
  (if totalUnrealizedPnl < -limits.maxDailyLoss then
    [.largeUnrealizedLosses totalUnrealizedPnl] else []) ++
  (if riskPositions.length > 0 then [.liquidationRisk riskPositions.length] else [])

/-- `calculateRiskMetrics` (src/lib/risk-management.ts lines 43-81). -/
def calculateRiskMetrics (limits : RiskLimits) (positions : List Position)
    (orders : List Order) (accountBalance : ℚ) : RiskMetrics :=
  let totalExposure := (positions.map (fun pos => |pos.size * pos.markPrice|)).sum
  let marginUsed := (positions.map Position.margin).sum
  let availableMargin := accountBalance - marginUsed
  let marginUtilization := marginUsed / accountBalance
  let totalUnrealizedPnl := (positions.map Position.unrealizedPnl).sum
  let totalRealizedPnl := (positions.map Position.realizedPnl).sum
  let riskScore := calculateRiskScore limits marginUtilization positions.length
    (totalUnrealizedPnl / accountBalance)
  { totalExposure := totalExposure
    availableMargin := availableMargin
    marginUsed := marginUsed
    marginUtilization := marginUtilization
    totalUnrealizedPnl := totalUnrealizedPnl
    totalRealizedPnl := totalRealizedPnl
    riskScore := riskScore
    maxPositionSize := calculateMaxPositionSize limits accountBalance marginUsed
    liquidationRisk := calculateLiquidationRisk positions accountBalance
    warnings := generateWarnings limits positions orders accountBalance }

/-- Claim C9: the risk score is monotone in margin utilization — both at the
level of `calculateRiskScore` (holding position count and P&L ratio fixed)
and through `calculateRiskMetrics` (position lists with equal count and equal
total unrealized P&L but pointwise-larger total margin, against the same
positive balance, never score lower). -/
theorem riskScore_monotone_in_marginUtilization (limits : RiskLimits) :
    (∀ (c : Nat) (r u1 u2 : ℚ), u1 ≤ u2 →
      calculateRiskScore limits u1 c r ≤ calculateRiskScore limits u2 c r) ∧
    (∀ (ps1 ps2 : List Position) (os : List Order) (bal : ℚ), 0 < bal →
      ps1.length = ps2.length →
      (ps1.map Position.unrealizedPnl).sum = (ps2.map Position.unrealizedPnl).sum →
      (ps1.map Position.margin).sum ≤ (ps2.map Position.margin).sum →
      (calculateRiskMetrics limits ps1 os bal).riskScore ≤
        (calculateRiskMetrics limits ps2 os bal).riskScore) := by
  have hscore : ∀ (c : Nat) (r u1 u2 : ℚ), u1 ≤ u2 →
      calculateRiskScore limits u1 c r ≤ calculateRiskScore limits u2 c r := by
    intro c r u1 u2 h
    unfold calculateRiskScore
    by_cases hr : r < 0
    · simp only [hr, if_true]
      refine min_le_min (by linarith) le_rfl
    · simp only [hr, if_false]
      refine min_le_min (by linarith) le_rfl
  refine ⟨hscore, ?_⟩
  intro ps1 ps2 os bal hbal hlen hpnl hmargin
  show calculateRiskScore limits ((ps1.map Position.margin).sum / bal) ps1.length
      ((ps1.map Position.unrealizedPnl).sum / bal) ≤
    calculateRiskScore limits ((ps2.map Position.margin).sum / bal) ps2.length
      ((ps2.map Position.unrealizedPnl).sum / bal)
  rw [hlen, hpnl]
  exact hscore _ _ _ _ ((div_le_div_right hbal).mpr hmargin)

/-- Claim C9 witness: for the default limits, one fixed position count and
P&L ratio, utilizations 1/4 ≤ 1/2 give non-decreasing scores. -/
theorem riskScore_monotone_in_marginUtilization_witness :
    calculateRiskScore defaultRiskLimits (1/4) 1 0 ≤
      calculateRiskScore defaultRiskLimits (1/2) 1 0 :=
  (riskScore_monotone_in_marginUtilization defaultRiskLimits).1 1 0 (1/4) (1/2)
    (by norm_num)

/-- The signed size a trade contributes:
`trade.side === 'buy' ? trade.quantity : -trade.quantity`. -/
def signedSize (t : Trade) : ℚ := if t.side = .buy then t.quantity else -t.quantity

/-- Claim C2: a fill in the same direction as the existing position on its
`(symbol, leverage)` key moves the entry price to the volume-weighted average
`(|oldSize|*oldEntry + addedQty*addedPrice) / (|oldSize|+addedQty)`, adds the
signed trade quantity to the size, and increases the margin by
`addedQty*addedPrice/leverage`. -/
theorem updatePosition_same_direction (st : EngineState) (t : Trade) (pos : Position)
    (hpos : lookupKV st.positions (t.symbol, t.leverage) = some pos)
    (hdir : qsign pos.size = qsign (signedSize t))
    (hlev : t.leverage ≠ 0) :
    lookupKV (updatePosition st t).positions (t.symbol, t.leverage) =
      some { pos with
        entryPrice := (|pos.size| * pos.entryPrice + t.quantity * t.price) /
          (|pos.size| + t.quantity)
        size := pos.size + signedSize t
        margin := pos.margin + t.quantity * t.price / t.leverage } := by
  simp only [signedSize] at hdir ⊢
  unfold updatePosition
  simp only [hpos]
  rw [if_pos (Or.inl hdir), lookupKV_insertKV_self]
  unfold levOr1
  rw [if_neg hlev]

/-- The position of claim C2's concrete instance: net long 10 units at entry
price 100 on key ("BTC", 1). -/
def longTenAt100 : Position :=
  { id := 0, symbol := "BTC", side := .buy, size := 10, entryPrice := 100,
    markPrice := 100, pnl := 0, pnlPercent := 0, unrealizedPnl := 0,
    realizedPnl := 0, leverage := 1, margin := 1000, timestamp := 0 }

/-- An engine state holding only `longTenAt100`. -/
def longTenState : EngineState := { positions := [(("BTC", 1), longTenAt100)] }

/-- Claim C2's concrete trade: buy 10 more units at 120 on the same key. -/
def buyTenAt120 : Trade :=
  { id := 0, orderId := 1, symbol := "BTC", side := .buy, quantity := 10,
    price := 120, timestamp := 1, fee := 6/5, leverage := 1 }

/-- Claim C2 witness: applying the same-direction update to the long of 10 at
entry 100 with a buy of 10 at 120 yields entry price 110 and size 20. -/
theorem updatePosition_same_direction_witness :
    ∃ p, lookupKV (updatePosition longTenState buyTenAt120).positions
        (buyTenAt120.symbol, buyTenAt120.leverage) = some p ∧
      p.entryPrice = 110 ∧ p.size = 20 ∧ p.margin = 2200 := by
  refine ⟨_,
    updatePosition_same_direction longTenState buyTenAt120 longTenAt100 rfl
      (by norm_num [qsign, signedSize, longTenAt100, buyTenAt120])
      (by norm_num [buyTenAt120]), ?_, ?_, ?_⟩
  · show (|longTenAt100.size| * longTenAt100.entryPrice +
        buyTenAt120.quantity * buyTenAt120.price) /
      (|longTenAt100.size| + buyTenAt120.quantity) = 110
    norm_num [longTenAt100, buyTenAt120]
  · show longTenAt100.size + (if buyTenAt120.side = .buy then buyTenAt120.quantity
      else -buyTenAt120.quantity) = 20
    norm_num [longTenAt100, buyTenAt120]
  · show longTenAt100.margin + buyTenAt120.quantity * buyTenAt120.price /
      buyTenAt120.leverage = 2200
    norm_num [longTenAt100, buyTenAt120]

/-- Claim C3: a fill in the opposite direction of the existing position first
realizes `pnlPerUnit * closingQuantity * leverage` (with
`pnlPerUnit = entry - fillPrice` for a buy fill and `fillPrice - entry` for a
sell fill, and `closingQuantity = min(|oldSize|, tradeQty)`), then sets the
size to the signed sum and leaves the entry price unchanged; when the new
magnitude is smaller than the old, the margin is recomputed as
`|newSize| * entryPrice / leverage`, otherwise it is untouched. -/
theorem updatePosition_opposite_direction (st : EngineState) (t : Trade)
    (pos : Position)
    (hpos : lookupKV st.positions (t.symbol, t.leverage) = some pos)
    (hdir : qsign pos.size ≠ qsign (signedSize t))
    (hnz : pos.size ≠ 0) :
    ∃ pos', lookupKV (updatePosition st t).positions (t.symbol, t.leverage) = some pos' ∧
      pos'.realizedPnl = pos.realizedPnl +
        (if t.side = .buy then pos.entryPrice - t.price else t.price - pos.entryPrice) *
          min |pos.size| t.quantity * pos.leverage ∧
      pos'.size = pos.size + signedSize t ∧
      pos'.entryPrice = pos.entryPrice ∧
      (|pos.size + signedSize t| < |pos.size| →
        pos'.margin = |pos.size + signedSize t| * pos.entryPrice / pos.leverage) ∧
      (¬|pos.size + signedSize t| < |pos.size| → pos'.margin = pos.margin) := by
  simp only [signedSize] at hdir ⊢
  unfold updatePosition
  simp only [hpos]
  rw [if_neg (by push_neg; exact ⟨hdir, hnz⟩)]
  by_cases hred :
      |pos.size + (if t.side = .buy then t.quantity else -t.quantity)| < |pos.size|
  · rw [if_pos hred, lookupKV_insertKV_self]
    exact ⟨_, rfl, rfl, rfl, rfl, fun _ => rfl, fun h => absurd hred h⟩
  · rw [if_neg hred, lookupKV_insertKV_self]
    exact ⟨_, rfl, rfl, rfl, rfl, fun h => absurd h hred, fun _ => rfl⟩

/-- The position of claim C3's concrete instance: net long 20 units at entry
price 110 on key ("BTC", 1). -/
def longTwentyAt110 : Position :=
  { id := 0, symbol := "BTC", side := .buy, size := 20, entryPrice := 110,
    markPrice := 110, pnl := 0, pnlPercent := 0, unrealizedPnl := 0,
    realizedPnl := 0, leverage := 1, margin := 2200, timestamp := 0 }

/-- An engine state holding only `longTwentyAt110`. -/
def longTwentyState : EngineState := { positions := [(("BTC", 1), longTwentyAt110)] }

/-- Claim C3's concrete trade: sell 5 units at 130 on the same key. -/
def sellFiveAt130 : Trade :=
  { id := 1, orderId := 2, symbol := "BTC", side := .sell, quantity := 5,
    price := 130, timestamp := 2, fee := 13/20, leverage := 1 }

/-- Claim C3 witness: selling 5 units at 130 out of the 20-unit long with
entry 110 and leverage 1 realizes (130-110)*5*1 = 100, shrinks the size to
15, and keeps entry price 110. -/
theorem updatePosition_opposite_direction_witness :
    ∃ p, lookupKV (updatePosition longTwentyState sellFiveAt130).positions
        (sellFiveAt130.symbol, sellFiveAt130.leverage) = some p ∧
      p.realizedPnl = 100 ∧ p.size = 15 ∧ p.entryPrice = 110 := by
  obtain ⟨p, h1, h2, h3, h4, h5, _⟩ :=
    updatePosition_opposite_direction longTwentyState sellFiveAt130 longTwentyAt110
      rfl
      (by
        have hs : signedSize sellFiveAt130 = -5 := by
          simp [signedSize, sellFiveAt130]
        rw [hs]
        norm_num [qsign, longTwentyAt110])
      (by norm_num [longTwentyAt110])
  refine ⟨p, h1, ?_, ?_, ?_⟩
  · rw [h2]
    have hs : (if sellFiveAt130.side = Side.buy then
        longTwentyAt110.entryPrice - sellFiveAt130.price
      else sellFiveAt130.price - longTwentyAt110.entryPrice) = 20 := by
      simp [sellFiveAt130, longTwentyAt110]
      norm_num
    rw [hs]
    norm_num [longTwentyAt110, sellFiveAt130]
  · rw [h3]
    have hs : signedSize sellFiveAt130 = -5 := by simp [signedSize, sellFiveAt130]
    rw [hs]
    norm_num [longTwentyAt110]
  · rw [h4]
    rfl

/-- A limit order that passes validation carries a truthy, strictly positive
price (otherwise the price-required error would have fired). -/
theorem validateOrder_limit_price_pos (od : OrderData) (bal : JsBal) (cp : ℚ)
    (hvalid : (validateOrder od bal cp).isValid = true)
    (htype : od.otype = some .limit) :
    truthyQ od.price = true ∧ 0 < od.price.getD 0 := by
  have herr : (validateOrder od bal cp).errors = [] := by
    have hdef : (validateOrder od bal cp).isValid =
        (validateOrder od bal cp).errors.isEmpty := rfl
    rw [hdef] at hvalid
    exact List.isEmpty_iff.mp hvalid
  by_cases hc : od.otype = some OType.limit ∧
      (¬truthyQ od.price = true ∨ od.price.getD 0 ≤ 0)
  · exfalso
    have hmem : VErr.priceRequiredForLimit ∈ (validateOrder od bal cp).errors := by
      simp only [validateOrder, List.mem_append]
      rw [if_pos hc]
      simp
    rw [herr] at hmem
    simp at hmem
  · push_neg at hc
    obtain ⟨h1, h2⟩ := hc htype
    exact ⟨by simpa using h1, by linarith⟩

/-- Claim C1: a valid limit order that is not marketable (buy strictly below
`currentPrice`, or sell strictly above it) yields `success = true` with
`executedQuantity = 0` and no trade, appends nothing to the trade list,
leaves positions untouched, and the stored order ends with status `filled`
and `filledQuantity = 0` because the status assignment follows the success
flag. -/
theorem executeOrder_nonmarketable_limit (st : EngineState) (od : OrderData)
    (bal : JsBal) (cp s : ℚ) (now : Nat) (p : ℚ)
    (hvalid : (validateOrder od bal cp).isValid = true)
    (htype : od.otype = some .limit)
    (hp : od.price = some p)
    (hnm : (od.side = some .buy ∧ p < cp) ∨ (od.side = some .sell ∧ cp < p)) :
    (executeOrder st od bal cp s now).2.success = true ∧
    (executeOrder st od bal cp s now).2.executedQuantity = some 0 ∧
    (executeOrder st od bal cp s now).2.trade = none ∧
    (executeOrder st od bal cp s now).1.trades = st.trades ∧
    (executeOrder st od bal cp s now).1.positions = st.positions ∧
    ∃ o, (executeOrder st od bal cp s now).2.orderId = some (st.orderCounter + 1) ∧
      lookupKV (executeOrder st od bal cp s now).1.orders (st.orderCounter + 1) = some o ∧
      o.status = .filled ∧ o.filledQuantity = some 0 := by
  obtain ⟨hpt, hppos⟩ := validateOrder_limit_price_pos od bal cp hvalid htype
  rw [hp] at hppos
  simp only [Option.getD_some] at hppos
  have hp0 : p ≠ 0 := ne_of_gt hppos
  have hprice : orDefault od.price cp = p := by
    rw [hp]
    show (if p = 0 then cp else p) = p
    rw [if_neg hp0]
  rcases hnm with ⟨hside, hlt⟩ | ⟨hside, hlt⟩ <;>
    simp only [executeOrder, hvalid, Bool.not_true, Bool.false_eq_true, if_false,
      htype, hside, hprice, Option.getD_some, executeLimitOrder] <;>
    rw [if_neg (by decide : ¬(OType.limit = OType.market))] <;>
    [rw [if_neg (by
        rintro (⟨-, hge⟩ | ⟨hb, -⟩)
        · exact absurd hge (not_le.mpr hlt)
        · cases hb)];
     rw [if_neg (by
        rintro (⟨hb, -⟩ | ⟨-, hle⟩)
        · cases hb
        · exact absurd hle (not_le.mpr hlt))]] <;>
    simp [lookupKV_insertKV_self]

/-- Claim C1's concrete order data: a buy limit at 90 while the market trades
at 100 (valid: notional 90 is over the $10 minimum and under the balance). -/
def nmLimitData : OrderData :=
  { symbol := some "BTC", side := some .buy, otype := some .limit,
    quantity := some 1, price := some 90 }

/-- Claim C1 witness: executing the non-marketable buy limit `nmLimitData` on
the empty engine succeeds with zero fill, no trade, untouched positions, and
a stored order with status `filled` and `filledQuantity = 0`. -/
theorem executeOrder_nonmarketable_limit_witness :
    (validateOrder nmLimitData (some 1000) 100).isValid = true ∧
    ((executeOrder emptyEngine nmLimitData (some 1000) 100 0 5).2.success = true ∧
      (executeOrder emptyEngine nmLimitData (some 1000) 100 0 5).2.executedQuantity = some 0 ∧
      (executeOrder emptyEngine nmLimitData (some 1000) 100 0 5).2.trade = none ∧
      (executeOrder emptyEngine nmLimitData (some 1000) 100 0 5).1.trades = emptyEngine.trades ∧
      (executeOrder emptyEngine nmLimitData (some 1000) 100 0 5).1.positions = emptyEngine.positions ∧
      ∃ o, (executeOrder emptyEngine nmLimitData (some 1000) 100 0 5).2.orderId =
          some (emptyEngine.orderCounter + 1) ∧
        lookupKV (executeOrder emptyEngine nmLimitData (some 1000) 100 0 5).1.orders
          (emptyEngine.orderCounter + 1) = some o ∧
        o.status = .filled ∧ o.filledQuantity = some 0) := by
  have hv : (validateOrder nmLimitData (some 1000) 100).isValid = true := by
    norm_num [validateOrder, truthyQ, truthyStr, gtBal, nmLimitData]
    decide
  exact ⟨hv, executeOrder_nonmarketable_limit emptyEngine nmLimitData (some 1000)
    100 0 5 90 hv rfl rfl (Or.inl ⟨rfl, by norm_num⟩)⟩

/-- `executeMarketOrder` always reports success
(src/lib/trading-engine.ts line 187). -/
theorem executeMarketOrder_success (st : EngineState) (o : Order) (cp s : ℚ)
    (now : Nat) : (executeMarketOrder st o cp s now).2.success = true := rfl

/-- `executeLimitOrder` reports success both when it fills and when the order
is not marketable (src/lib/trading-engine.ts lines 205-233). -/
theorem executeLimitOrder_success (st : EngineState) (o : Order) (cp : ℚ)
    (now : Nat) : (executeLimitOrder st o cp now).2.success = true := by
  simp only [executeLimitOrder]
  split <;> rfl

/-- Claim C10: after a valid `executeOrder` call the stored order's status is
`filled` or `rejected` — never `pending` — and therefore `cancelOrder` on its
id returns false. -/
theorem executeOrder_stored_order_not_pending (st : EngineState) (od : OrderData)
    (bal : JsBal) (cp s : ℚ) (now now2 : Nat)
    (hvalid : (validateOrder od bal cp).isValid = true) :
    ∃ oid o, (executeOrder st od bal cp s now).2.orderId = some oid ∧
      lookupKV (executeOrder st od bal cp s now).1.orders oid = some o ∧
      (o.status = .filled ∨ o.status = .rejected) ∧
      (cancelOrder (executeOrder st od bal cp s now).1 oid now2).2 = false := by
  simp only [executeOrder, hvalid, Bool.not_true, Bool.false_eq_true, if_false]
  split
  · simp [executeMarketOrder_success, cancelOrder, lookupKV_insertKV_self]
  · simp [executeLimitOrder_success, cancelOrder, lookupKV_insertKV_self]

/-- A valid market buy of 10 units used by several concrete runs. -/
def marketBuyTen : OrderData :=
  { symbol := some "BTC", side := some .buy, otype := some .market,
    quantity := some 10, leverage := some 1 }

/-- The same concrete order on the sell side, for 15 units. -/
def marketSellFifteen : OrderData :=
  { symbol := some "BTC", side := some .sell, otype := some .market,
    quantity := some 15, leverage := some 1 }

/-- Claim C10 witness: executing the valid market order `marketBuyTen` on the
empty engine stores an order that is `filled` or `rejected` and that
`cancelOrder` refuses to cancel. -/
theorem executeOrder_stored_order_not_pending_witness :
    (validateOrder marketBuyTen (some 100000) 100).isValid = true ∧
    ∃ oid o,
      (executeOrder emptyEngine marketBuyTen (some 100000) 100 0 0).2.orderId = some oid ∧
      lookupKV (executeOrder emptyEngine marketBuyTen (some 100000) 100 0 0).1.orders oid =
        some o ∧
      (o.status = .filled ∨ o.status = .rejected) ∧
      (cancelOrder (executeOrder emptyEngine marketBuyTen (some 100000) 100 0 0).1 oid 9).2 =
        false := by
  have hv : (validateOrder marketBuyTen (some 100000) 100).isValid = true := by
    norm_num [validateOrder, truthyQ, truthyStr, gtBal, marketBuyTen]
    decide
  exact ⟨hv, executeOrder_stored_order_not_pending emptyEngine marketBuyTen
    (some 100000) 100 0 0 9 hv⟩

/-- Claim C4 counterexample: a market buy of 10 followed by a market sell of
15 on the same ("BTC", 1) key (both reachable `executeOrder` calls at price
100 with zero slippage) leaves a position with size -5 whose `side` field is
still `buy` — the engine never re-derives `side` from the sign of `size`. -/
theorem position_side_stale_after_sign_flip :
    ((lookupKV
        (executeOrder
          (executeOrder emptyEngine marketBuyTen (some 100000) 100 0 0).1
          marketSellFifteen (some 100000) 100 0 1).1.positions
        ("BTC", 1)).map (fun pos => (pos.side, pos.size))) = some (Side.buy, -5) ∧
    (-5 : ℚ) < 0 ∧ Side.buy ≠ Side.sell := by
  refine ⟨?_, by norm_num, by decide⟩
  norm_num [executeOrder, validateOrder, executeMarketOrder, updatePosition,
    insertKV, lookupKV, truthyQ, truthyStr, gtBal, orDefault, levOr1, qsign,
    calculateFee, marketBuyTen, marketSellFifteen, emptyEngine]
  rw [show (if Side.sell = Side.buy then (15:ℚ) else -15) = -15 from if_neg (by decide)]
  norm_num

/-- Claim C4 (amended): a position's `side` is copied from the trade that
creates it — at creation it does agree with the sign of `size` whenever the
trade quantity is positive — and no later fill ever modifies `side`; after a
sign-flipping fill the field therefore goes stale instead of tracking the
sign of `size`. -/
theorem updatePosition_side_set_at_creation (st : EngineState) (t : Trade) :
    (lookupKV st.positions (t.symbol, t.leverage) = none →
      ∃ pos, lookupKV (updatePosition st t).positions (t.symbol, t.leverage) = some pos ∧
        pos.side = t.side ∧
        (0 < t.quantity →
          ((pos.side = .buy ↔ pos.size > 0) ∧ (pos.side = .sell ↔ pos.size < 0)))) ∧
    (∀ pos, lookupKV st.positions (t.symbol, t.leverage) = some pos →
      ∃ pos', lookupKV (updatePosition st t).positions (t.symbol, t.leverage) = some pos' ∧
        pos'.side = pos.side) := by
  constructor
  · intro hnone
    unfold updatePosition
    simp only [hnone]
    refine ⟨_, lookupKV_insertKV_self _ _ _, rfl, ?_⟩
    intro hq
    cases h : t.side <;> simp only [h] <;> constructor <;> simp <;> linarith
  · intro pos hpos
    unfold updatePosition
    simp only [hpos]
    by_cases hsame : qsign pos.size =
        qsign (if t.side = Side.buy then t.quantity else -t.quantity) ∨ pos.size = 0
    · rw [if_pos hsame]
      exact ⟨_, lookupKV_insertKV_self _ _ _, rfl⟩
    · rw [if_neg hsame]
      by_cases hred : |pos.size + (if t.side = Side.buy then t.quantity else -t.quantity)| <
          |pos.size|
      · rw [if_pos hred]
        exact ⟨_, lookupKV_insertKV_self _ _ _, rfl⟩
      · rw [if_neg hred]
        exact ⟨_, lookupKV_insertKV_self _ _ _, rfl⟩

/-- Claim C4 (amended) witness: creating a position from the concrete buy
trade `buyTenAt120` on the empty engine gives side `buy` agreeing with the
positive size. -/
theorem updatePosition_side_set_at_creation_witness :
    ∃ pos, lookupKV (updatePosition emptyEngine buyTenAt120).positions
        (buyTenAt120.symbol, buyTenAt120.leverage) = some pos ∧
      pos.side = buyTenAt120.side ∧
      ((pos.side = .buy ↔ pos.size > 0) ∧ (pos.side = .sell ↔ pos.size < 0)) := by
  obtain ⟨pos, h1, h2, h3⟩ :=
    (updatePosition_side_set_at_creation emptyEngine buyTenAt120).1 rfl
  exact ⟨pos, h1, h2, h3 (by norm_num [buyTenAt120])⟩
